import Mathlib

/-!
Verification development for the CST1510 dashboard repository
(`cst1510-auth`): a shallow embedding of the credential store
(`auth_db.py`), the three record stores (`models.py`) and the guarded
CSV loaders (`load_data.py`), together with proofs of the behavioural
properties stated for them.

The SQLite database is modelled as explicit state: each table is a list
of rows plus the next AUTOINCREMENT rowid.  Operations are pure state
transformers.  `datetime.utcnow().isoformat()` is modelled as an explicit
`now : String` argument.  Python truthiness (`x or y`, `not x`) on
strings and optional strings is modelled explicitly: `None` and `""` are
falsy.
-/

namespace CW2

/-- Python `a or b` where `a` is a possibly-`None` string and the result
is forced to a string (the chains in the source always end in a string
literal or a freshly generated timestamp).  `None` and `""` are falsy. -/
def pyOrStr : Option String → String → String
  | some s, d => if s = "" then d else s
  | none, d => d

/-- Python truthiness of an `Optional[str]`: `None` and `""` are falsy. -/
def pyTruthyOpt : Option String → Bool
  | none => false
  | some s => s ≠ ""

/-- Python `a or b` on possibly-`None` ints (`0` and `None` are falsy),
as in `get("id") or get("ticket_id")` in `ITTicket.from_row`. -/
def pyOrInt : Option Int → Option Int → Option Int
  | some i, b => if i = 0 then b else some i
  | none, b => b

/-- Python `str(x)` on a possibly-`None` int (`str(None) = "None"`). -/
def pyStrOfOptInt : Option Int → String
  | none => "None"
  | some i => toString i

/- ===================== Credential store (`auth_db.py`) ===================== -/

/-- Failure mode of registration: the `users.username UNIQUE` constraint
(`db_manager.py`, `CREATE TABLE users`) rejects a duplicate `INSERT`
(the spec calls this condition `DuplicateUser`). -/
inductive AuthError
  | duplicateUser
deriving DecidableEq, Repr

/-- A stored bcrypt hash: `bcrypt.hashpw` embeds the salt in the output
and `bcrypt.checkpw` re-extracts it.  The digest is produced by an
abstract key-derivation function `H : salt → password → digest`
supplied as a parameter; theorems that need collision-freedom assume
`H salt` is injective. -/
structure BcryptHash where
  salt : Nat
  digest : String
deriving DecidableEq, Repr

/-- `bcrypt.hashpw(password, bcrypt.gensalt())`: hash under a (random,
caller-supplied here) salt. -/
def bcrypt_hashpw (H : Nat → String → String) (pw : String) (salt : Nat) : BcryptHash :=
  ⟨salt, H salt pw⟩

/-- `bcrypt.checkpw(plain, stored)`: extract the salt from the stored
hash, recompute, compare digests. -/
def bcrypt_checkpw (H : Nat → String → String) (pw : String) (h : BcryptHash) : Bool :=
  h.digest == H h.salt pw

/-- The `users` table: rows `(username, password_hash)` in insertion
order.  `username` carries a `UNIQUE` constraint. -/
abbrev UsersTable := List (String × BcryptHash)

/-- `auth_db.user_exists`: `SELECT 1 FROM users WHERE username = ?`. -/
def user_exists (db : UsersTable) (u : String) : Bool :=
  db.any (fun row => row.1 == u)

/-- `auth_db.register_user`: hash the password and `INSERT` the row.
The `UNIQUE` constraint on `username` makes the insert fail (and leave
the table unchanged) when the username is already present. -/
def register_user (H : Nat → String → String) (db : UsersTable) (u pw : String)
    (salt : Nat) : Except AuthError Unit × UsersTable :=
  if user_exists db u then (Except.error AuthError.duplicateUser, db)
  else (Except.ok (), db ++ [(u, bcrypt_hashpw H pw salt)])

/-- `auth_db.verify_user`: fetch the stored hash for the username
(`fetchone`); return `False` when absent, else `bcrypt.checkpw`. -/
def verify_user (H : Nat → String → String) (db : UsersTable) (u pw : String) : Bool :=
  match db.find? (fun row => row.1 == u) with
  | none => false
  | some row => bcrypt_checkpw H pw row.2

/-- The stored hash for a username (first matching row), for stating
that registration failures do not disturb stored credentials. -/
def stored_hash (db : UsersTable) (u : String) : Option BcryptHash :=
  (db.find? (fun row => row.1 == u)).map Prod.snd


/- ===================== Incident store (`models.SecurityIncident`) ===================== -/

/-- A row of the `cyber_incidents` table (schema created by
`SecurityIncident.ensure_table`): all `TEXT NOT NULL` except the
nullable `resolved_at` and `analyst`. -/
structure IncidentRow where
  id : Nat
  incident_type : String
  severity : String
  description : String
  status : String
  detected_at : String
  resolved_at : Option String
  analyst : Option String
deriving DecidableEq, Repr

/-- The `cyber_incidents` table: rows plus the next AUTOINCREMENT id. -/
structure IncidentTable where
  rows : List IncidentRow
  nextId : Nat
deriving DecidableEq, Repr

def emptyIncidentTable : IncidentTable := ⟨[], 1⟩

/-- The `SecurityIncident` dataclass. -/
structure SecurityIncident where
  id : Option Nat
  incident_type : String
  severity : String
  description : String
  status : String
  detected_at : String
  resolved_at : Option String
  analyst : Option String
deriving DecidableEq, Repr

/-- `SecurityIncident.from_row`: tolerant mapping with `or`-defaults
(`"" `/`None` fall back to `"Other"`, `"Low"`, `""`, `"Open"`, `""`);
`resolved_at` and `analyst` pass through unchanged. -/
def SecurityIncident.from_row (r : IncidentRow) : SecurityIncident :=
  { id := some r.id,
    incident_type := pyOrStr (some r.incident_type) "Other",
    severity := pyOrStr (some r.severity) "Low",
    description := pyOrStr (some r.description) "",
    status := pyOrStr (some r.status) "Open",
    detected_at := pyOrStr (some r.detected_at) "",
    resolved_at := r.resolved_at,
    analyst := r.analyst }

/-- `SecurityIncident.get_by_id`: `SELECT * WHERE id = ?`, `fetchone`,
then `from_row`; `None` when absent. -/
def SecurityIncident.get_by_id (t : IncidentTable) (i : Nat) : Option SecurityIncident :=
  (t.rows.find? (fun r => r.id == i)).map SecurityIncident.from_row

/-- `SecurityIncident.count`: `SELECT COUNT(*)`. -/
def SecurityIncident.count (t : IncidentTable) : Nat := t.rows.length

/-- `SecurityIncident.create`: insert with `status='Open'`,
`detected_at = utcnow`, `resolved_at = NULL`; returns the entity built
from the raw arguments and `lastrowid`. -/
def SecurityIncident.create (t : IncidentTable) (typ sev desc : String)
    (analyst : Option String) (now : String) : SecurityIncident × IncidentTable :=
  let row : IncidentRow :=
    { id := t.nextId, incident_type := typ, severity := sev, description := desc,
      status := "Open", detected_at := now, resolved_at := none, analyst := analyst }
  (⟨some t.nextId, typ, sev, desc, "Open", now, none, analyst⟩,
   { rows := t.rows ++ [row], nextId := t.nextId + 1 })

/-- `SecurityIncident.update`: reads the current row via `get_by_id`,
computes the new `resolved_at` with Python truthiness
(`if status == "Resolved" and not resolved_at: ... ; if status != "Resolved": resolved_at = None`),
then `UPDATE ... WHERE id = ?` (a no-op when the id is absent). -/
def SecurityIncident.update (t : IncidentTable) (i : Nat)
    (typ sev desc status_ : String) (analyst : Option String) (now : String) :
    IncidentTable :=
  let current := SecurityIncident.get_by_id t i
  let ra0 : Option String := match current with
    | some c => c.resolved_at
    | none => none
  let ra1 : Option String :=
    if status_ = "Resolved" ∧ pyTruthyOpt ra0 = false then some now else ra0
  let ra2 : Option String := if status_ ≠ "Resolved" then none else ra1
  { t with rows := t.rows.map (fun r =>
      if r.id = i then
        { r with incident_type := typ, severity := sev, description := desc,
                 status := status_, resolved_at := ra2, analyst := analyst }
      else r) }

/-- `SecurityIncident.delete`: `DELETE ... WHERE id = ?` (a no-op when
the id is absent). -/
def SecurityIncident.delete (t : IncidentTable) (i : Nat) : IncidentTable :=
  { t with rows := t.rows.filter (fun r => !(r.id == i)) }

/-- One call against the incident store (used to state the
`resolved_at`/`status` invariant over arbitrary operation sequences). -/
inductive IncidentOp
  | create (typ sev desc : String) (analyst : Option String) (now : String)
  | update (i : Nat) (typ sev desc status_ : String) (analyst : Option String) (now : String)
  | delete (i : Nat)

def applyIncidentOp (t : IncidentTable) : IncidentOp → IncidentTable
  | IncidentOp.create typ sev desc analyst now =>
      (SecurityIncident.create t typ sev desc analyst now).2
  | IncidentOp.update i typ sev desc status_ analyst now =>
      SecurityIncident.update t i typ sev desc status_ analyst now
  | IncidentOp.delete i => SecurityIncident.delete t i

def applyIncidentOps (t : IncidentTable) (ops : List IncidentOp) : IncidentTable :=
  ops.foldl applyIncidentOp t

/-- The §3 invariant for the incident store: `resolved_at` is non-null
iff `status = "Resolved"`. -/
def incidentInv (t : IncidentTable) : Prop :=
  ∀ r ∈ t.rows, (r.resolved_at ≠ none ↔ r.status = "Resolved")

/- ===================== Ticket store (`models.ITTicket`) ===================== -/

/-- A row of the `it_tickets` table.  The cell for a column that is not
part of the table's current schema is irrelevant; the schema flags live
on `TicketTable`.  All columns are nullable (`TEXT` with no
constraint), so every cell is an `Option`. -/
structure TicketRow where
  id : Nat
  ticket_id : Option Int
  priority : Option String
  description : Option String
  status : Option String
  assigned_to : Option String
  created_at : Option String
  resolution_time_hours : Option Rat
  title : Option String
  created_date : Option String
deriving DecidableEq, Repr

/-- The `it_tickets` table: which optional columns the current schema
has (`PRAGMA table_info`), the rows, and the next AUTOINCREMENT id.
`id`, `priority` and `status` exist in both the legacy
(`db_manager.create_tables`) and the new (`ensure_it_tickets_table`)
schema, so they carry no flag. -/
structure TicketTable where
  hasTicketId : Bool
  hasDescription : Bool
  hasAssignedTo : Bool
  hasCreatedAt : Bool
  hasResolutionTime : Bool
  hasTitle : Bool
  hasCreatedDate : Bool
  rows : List TicketRow
  nextId : Nat
deriving DecidableEq, Repr

/-- The table as created from scratch by `ensure_it_tickets_table`
(`CREATE TABLE IF NOT EXISTS` with the new schema). -/
def newTicketTable : TicketTable :=
  { hasTicketId := false, hasDescription := false, hasAssignedTo := false,
    hasCreatedAt := false, hasResolutionTime := false,
    hasTitle := true, hasCreatedDate := true, rows := [], nextId := 1 }

/-- The legacy shape created by `db_manager.create_tables`: columns
`id, ticket_id, priority, description, status, assigned_to, created_at,
resolution_time_hours`, without `title`/`created_date`. -/
def legacyTicketTable (rows : List TicketRow) (nextId : Nat) : TicketTable :=
  { hasTicketId := true, hasDescription := true, hasAssignedTo := true,
    hasCreatedAt := true, hasResolutionTime := true,
    hasTitle := false, hasCreatedDate := false, rows := rows, nextId := nextId }

/-- The `UPDATE it_tickets SET title = description WHERE (title IS NULL
OR title = '') AND description IS NOT NULL` backfill, per row. -/
def btRow (r : TicketRow) : TicketRow :=
  if (r.title = none ∨ r.title = some "") ∧ r.description ≠ none then
    { r with title := r.description }
  else r

/-- The `UPDATE it_tickets SET created_date = created_at WHERE
(created_date IS NULL OR created_date = '') AND created_at IS NOT NULL`
backfill, per row. -/
def bcRow (r : TicketRow) : TicketRow :=
  if (r.created_date = none ∨ r.created_date = some "") ∧ r.created_at ≠ none then
    { r with created_date := r.created_at }
  else r

/-- `ensure_it_tickets_table` on an existing table: add the `title` and
`created_date` columns if missing (`ALTER TABLE ADD COLUMN` initialises
the new column to `NULL` in every existing row), then run the two
backfill `UPDATE`s guarded by column presence. -/
def ensureTicketsTable (t : TicketTable) : TicketTable :=
  let t1 := if t.hasTitle then t
    else { t with hasTitle := true,
                  rows := t.rows.map (fun r => { r with title := none }) }
  let t2 := if t1.hasCreatedDate then t1
    else { t1 with hasCreatedDate := true,
                   rows := t1.rows.map (fun r => { r with created_date := none }) }
  let t3 := if t2.hasDescription then { t2 with rows := t2.rows.map btRow } else t2
  if t3.hasCreatedAt then { t3 with rows := t3.rows.map bcRow } else t3

/-- `models.ensure_it_tickets_table`: create the table with the new
schema when absent, otherwise reconcile an existing (possibly legacy)
table. -/
def ensure_it_tickets_table : Option TicketTable → TicketTable
  | none => newTicketTable
  | some t => ensureTicketsTable t

/-- The `ITTicket` dataclass.  `priority`/`status` are typed `str` in
the source but receive the raw cell (possibly `None`), hence
`Option String` here. -/
structure ITTicket where
  id : Option Nat
  title : String
  priority : Option String
  status : Option String
  created_date : String
deriving DecidableEq, Repr

/-- `ITTicket.from_row`: `get(col)` is the cell when the column is in
the row's keys and `None`/a default otherwise.  `title` and
`created_date` are Python `or`-chains ending in a synthetic string
resp. `datetime.utcnow()` (the `now` argument); the column `created`
exists in neither schema, so its `get` contributes `None`. -/
def ITTicket.from_row (t : TicketTable) (r : TicketRow) (now : String) : ITTicket :=
  let getTitle : Option String := if t.hasTitle then r.title else none
  let getDesc : Option String := if t.hasDescription then r.description else none
  let getCD : Option String := if t.hasCreatedDate then r.created_date else none
  let getCA : Option String := if t.hasCreatedAt then r.created_at else none
  let tid : Option Int :=
    pyOrInt (some (r.id : Int)) (if t.hasTicketId then r.ticket_id else none)
  { id := some r.id,
    title := pyOrStr getTitle
      (pyOrStr getDesc ("Ticket " ++ pyStrOfOptInt tid ++ " problem description")),
    priority := r.priority,
    status := r.status,
    created_date := pyOrStr getCD (pyOrStr getCA now) }

/-- `ITTicket.get_by_id`: `ensure_it_tickets_table()`, then
`SELECT * WHERE id = ?` and `from_row`.  Returns the looked-up entity
and the (possibly migrated) table state. -/
def ITTicket.get_by_id (t : Option TicketTable) (i : Nat) (now : String) :
    Option ITTicket × TicketTable :=
  let u := ensure_it_tickets_table t
  ((u.rows.find? (fun r => r.id == i)).map (fun r => ITTicket.from_row u r now), u)

/-- `ITTicket.create`: `ensure_it_tickets_table()`, then `INSERT INTO
it_tickets (title, priority, status, created_date)` (all other columns
receive `NULL`) and return the entity built from the raw arguments and
`lastrowid`. -/
def ITTicket.create (t : Option TicketTable) (title pr stt now : String) :
    ITTicket × TicketTable :=
  let u := ensure_it_tickets_table t
  let row : TicketRow :=
    { id := u.nextId, ticket_id := none, priority := some pr, description := none,
      status := some stt, assigned_to := none, created_at := none,
      resolution_time_hours := none, title := some title, created_date := some now }
  (⟨some u.nextId, title, some pr, some stt, now⟩,
   { u with rows := u.rows ++ [row], nextId := u.nextId + 1 })

/-- `ITTicket.update`: `ensure_it_tickets_table()`, then
`UPDATE it_tickets SET priority = ?, status = ? WHERE id = ?`. -/
def ITTicket.update (t : Option TicketTable) (i : Nat) (pr stt : String) : TicketTable :=
  let u := ensure_it_tickets_table t
  { u with rows := u.rows.map (fun r =>
      if r.id = i then { r with priority := some pr, status := some stt } else r) }

/- ===================== Dataset store (`models.DatasetMetadata`) ===================== -/

/-- A Python value as it can appear in a row cell handed to the dataset
store's safe casts: `None`, an `int`, a `float` (modelled as `Rat`
since the casts only store and compare, never compute), or a `str`. -/
inductive PyVal
  | vnone
  | vint (i : Int)
  | vreal (q : Rat)
  | vtext (s : String)
deriving DecidableEq, Repr

/-- Leading-whitespace removal on a character list. -/
def dropWS : List Char → List Char
  | [] => []
  | c :: cs => if c.isWhitespace then dropWS cs else c :: cs

/-- Python `str.strip()`: whitespace removed from both ends. -/
def pyTrim (cs : List Char) : List Char :=
  ((dropWS ((dropWS cs).reverse)).reverse)

/-- A non-empty run of decimal digits read as a number (`none` on a
non-digit or, via `parseDigits`, on the empty string). -/
def digitsToNat (acc : Nat) : List Char → Option Nat
  | [] => some acc
  | c :: cs => if c.isDigit then digitsToNat (acc * 10 + (c.toNat - 48)) cs else none

def parseDigits (cs : List Char) : Option Nat :=
  if cs = [] then none else digitsToNat 0 cs

/-- Python `int(s)` on a string: optional surrounding whitespace,
optional sign, decimal digits (underscore/base forms are not used by
this repository's data and are not modelled). -/
def parsePyInt (s : String) : Option Int :=
  match pyTrim s.data with
  | '-' :: rest => (parseDigits rest).map (fun n => -(n : Int))
  | '+' :: rest => (parseDigits rest).map (fun n => (n : Int))
  | t => (parseDigits t).map (fun n => (n : Int))

/-- Split at the first `.`; a second `.` is left in the fraction part,
where the digit parser rejects it (as Python `float` does). -/
def splitDot : List Char → List Char × Option (List Char)
  | [] => ([], none)
  | c :: cs =>
      if c = '.' then ([], some cs)
      else
        let p := splitDot cs
        (c :: p.1, p.2)

/-- Python `float(s)` on a string: optional whitespace and sign, digits
with an optional single decimal point (exponents / `inf` / `nan` are
not used by this repository's data and are not modelled). -/
def parsePyFloat (s : String) : Option Rat :=
  let t := pyTrim s.data
  let sgn : Int := match t with
    | '-' :: _ => -1
    | _ => 1
  let body : List Char := match t with
    | '-' :: rest => rest
    | '+' :: rest => rest
    | _ => t
  match splitDot body with
  | (d, none) => (parseDigits d).map (fun n => ((sgn * (n : Int) : Int) : Rat))
  | (d, some f) =>
      if d = [] ∧ f = [] then none
      else
        match (if d = [] then some 0 else parseDigits d),
              (if f = [] then some 0 else parseDigits f) with
        | some n, some m =>
            some ((sgn : Rat) * ((n : Rat) + (m : Rat) / ((10 : Rat) ^ f.length)))
        | _, _ => none

/-- Python `int(v)`: `TypeError` on `None`, identity on ints,
truncation toward zero on floats, string parse on strings; `none`
models the raised `TypeError`/`ValueError`. -/
def pyIntCast : PyVal → Option Int
  | PyVal.vnone => none
  | PyVal.vint i => some i
  | PyVal.vreal q => some (Int.tdiv q.num (q.den : Int))
  | PyVal.vtext s => parsePyInt s

/-- Python `float(v)`: `TypeError` on `None`, promotion on ints,
identity on floats, string parse on strings. -/
def pyFloatCast : PyVal → Option Rat
  | PyVal.vnone => none
  | PyVal.vint i => some (i : Rat)
  | PyVal.vreal q => some q
  | PyVal.vtext s => parsePyFloat s

/-- `DatasetMetadata._safe_int`: `int(v)` with `TypeError`/`ValueError`
caught and replaced by the default `0`. -/
def safe_int (v : PyVal) : Int := (pyIntCast v).getD 0

/-- `DatasetMetadata._safe_float`: `float(v)` with the exceptions
caught and replaced by the default `0.0`. -/
def safe_float (v : PyVal) : Rat := (pyFloatCast v).getD 0

/-- A stored row of `datasets_metadata` (all columns `NOT NULL`;
`rows INTEGER`, `size_mb REAL`, the rest `TEXT`).  `create` always
stores already-cast values, hence the typed fields. -/
structure DatasetRow where
  id : Nat
  dataset_name : String
  source : String
  owner : String
  rows : Int
  size_mb : Rat
  sensitivity : String
  last_updated : String
  status : String
deriving DecidableEq, Repr

/-- The `datasets_metadata` table. -/
structure DatasetTable where
  rows : List DatasetRow
  nextId : Nat
deriving DecidableEq, Repr

def emptyDatasetTable : DatasetTable := ⟨[], 1⟩

/-- A raw dict row as `DatasetMetadata.from_row` receives it: every
field is read with `row.get(key)`, so a missing key and a `NULL` cell
are both `None` (`Option.none` resp. `PyVal.vnone` here). -/
structure RawDatasetRow where
  id : Option Nat
  dataset_name : Option String
  source : Option String
  owner : Option String
  rowsv : PyVal
  size_mbv : PyVal
  sensitivity : Option String
  last_updated : Option String
  status : Option String
deriving DecidableEq, Repr

/-- The `DatasetMetadata` dataclass. -/
structure DatasetMetadata where
  id : Option Nat
  dataset_name : String
  source : String
  owner : String
  rows : Int
  size_mb : Rat
  sensitivity : String
  last_updated : String
  status : String
deriving DecidableEq, Repr

/-- `DatasetMetadata.from_row` (the method on the class, lines
472-484): `or`-defaults for the text fields, safe casts for the
numeric ones. -/
def DatasetMetadata.from_row (r : RawDatasetRow) : DatasetMetadata :=
  { id := r.id,
    dataset_name := pyOrStr r.dataset_name "Unnamed Dataset",
    source := pyOrStr r.source "Unknown",
    owner := pyOrStr r.owner "Unknown",
    rows := safe_int r.rowsv,
    size_mb := safe_float r.size_mbv,
    sensitivity := pyOrStr r.sensitivity "Low",
    last_updated := pyOrStr r.last_updated "",
    status := pyOrStr r.status "Active" }

/-- View of a stored row as the dict that the row factory hands to
`from_row` (every column present and non-null). -/
def datasetRowToRaw (r : DatasetRow) : RawDatasetRow :=
  { id := some r.id, dataset_name := some r.dataset_name, source := some r.source,
    owner := some r.owner, rowsv := PyVal.vint r.rows,
    size_mbv := PyVal.vreal r.size_mb, sensitivity := some r.sensitivity,
    last_updated := some r.last_updated, status := some r.status }

/-- `DatasetMetadata.count`. -/
def DatasetMetadata.count (t : DatasetTable) : Nat := t.rows.length

/-- `DatasetMetadata.get_by_id`. -/
def DatasetMetadata.get_by_id (t : DatasetTable) (i : Nat) : Option DatasetMetadata :=
  (t.rows.find? (fun r => r.id == i)).map
    (fun r => DatasetMetadata.from_row (datasetRowToRaw r))

/-- `DatasetMetadata.create(dataset_name, source, owner, rows, size_mb,
sensitivity, status="Active", last_updated=None)`:
`ts = last_updated or utcnow`, safe casts on the numeric arguments,
insert, and return the entity built from the same values. -/
def DatasetMetadata.create (t : DatasetTable) (name source owner : String)
    (rowsIn sizeIn : PyVal) (sens status_ : String) (lastUpd : Option String)
    (now : String) : DatasetMetadata × DatasetTable :=
  let ts := pyOrStr lastUpd now
  let row : DatasetRow :=
    { id := t.nextId, dataset_name := name, source := source, owner := owner,
      rows := safe_int rowsIn, size_mb := safe_float sizeIn, sensitivity := sens,
      last_updated := ts, status := status_ }
  (⟨some t.nextId, name, source, owner, safe_int rowsIn, safe_float sizeIn,
    sens, ts, status_⟩,
   { rows := t.rows ++ [row], nextId := t.nextId + 1 })

/- ===================== Guarded CSV loaders (`load_data.py`) ===================== -/

/-- An exception escaping a loader call.  `nameError nm` models Python
`NameError: name 'nm' is not defined`. -/
inductive PyRunError
  | nameError (nm : String)
deriving DecidableEq, Repr

/-- Whether the global name `SecurityIncident` is bound in the
`load_data.py` module namespace.  The module's only imports are `os`,
`pandas as pd` and `DatabaseManager`, and nothing else binds the name,
so it is `false`. -/
def loadDataBindsSecurityIncident : Bool := false

/-- Whether the global name `DatasetMetadata` is bound in the
`load_data.py` module namespace: `false`, for the same reason. -/
def loadDataBindsDatasetMetadata : Bool := false

/-- One CSV record as extracted by `load_cyber_incidents_from_csv`
(the `str(...)` coercions and pandas defaults have already been
applied by the time `SecurityIncident.create` is called). -/
structure CsvIncident where
  incident_type : String
  severity : String
  description : String
  analyst : Option String
deriving DecidableEq, Repr

/-- The body of `load_cyber_incidents_from_csv` from its first
statement onward, as it executes once the name `SecurityIncident`
resolves: load ONLY if the table is empty (`count() > 0` guard),
inserting one incident per CSV record; returns the number of inserted
rows and the table state. -/
def load_cyber_incidents_body (csv : List CsvIncident) (now : String)
    (t : IncidentTable) : Nat × IncidentTable :=
  if SecurityIncident.count t > 0 then (0, t)
  else csv.foldl
    (fun acc c =>
      (acc.1 + 1,
       (SecurityIncident.create acc.2 c.incident_type c.severity c.description
          c.analyst now).2))
    (0, t)

/-- `load_cyber_incidents_from_csv`: its first statement,
`SecurityIncident.ensure_table()`, resolves the global name
`SecurityIncident`, which `load_data.py` never imports, so the call
raises `NameError` before the `count()` guard is evaluated; the rest
of the body would run only with that name bound. -/
def load_cyber_incidents_from_csv (csv : List CsvIncident) (now : String)
    (t : IncidentTable) : Except PyRunError (Nat × IncidentTable) :=
  if loadDataBindsSecurityIncident then
    Except.ok (load_cyber_incidents_body csv now t)
  else Except.error (PyRunError.nameError "SecurityIncident")

/-- One CSV record as extracted by `load_datasets_metadata_from_csv`.
The loader's unguarded `int(...)`/`float(...)` coercions have already
succeeded by the time `DatasetMetadata.create` is called (a record on
which they raise aborts the whole call before any insert of that
record). -/
structure CsvDataset where
  dataset_name : String
  source : String
  owner : String
  rows : Int
  size_mb : Rat
  sensitivity : String
  status : String
deriving DecidableEq, Repr

/-- The body of `load_datasets_metadata_from_csv` from its first
statement onward, as it executes once the name `DatasetMetadata`
resolves: load ONLY if the table is empty (`count() > 0` guard);
`create` is called with `last_updated` left at its `None` default. -/
def load_datasets_metadata_body (csv : List CsvDataset) (now : String)
    (t : DatasetTable) : Nat × DatasetTable :=
  if DatasetMetadata.count t > 0 then (0, t)
  else csv.foldl
    (fun acc c =>
      (acc.1 + 1,
       (DatasetMetadata.create acc.2 c.dataset_name c.source c.owner
          (PyVal.vint c.rows) (PyVal.vreal c.size_mb) c.sensitivity c.status
          none now).2))
    (0, t)

/-- `load_datasets_metadata_from_csv`: its first statement,
`DatasetMetadata.ensure_table()`, resolves the global name
`DatasetMetadata`, which `load_data.py` never imports, so the call
raises `NameError` before the `count()` guard is evaluated. -/
def load_datasets_metadata_from_csv (csv : List CsvDataset) (now : String)
    (t : DatasetTable) : Except PyRunError (Nat × DatasetTable) :=
  if loadDataBindsDatasetMetadata then
    Except.ok (load_datasets_metadata_body csv now t)
  else Except.error (PyRunError.nameError "DatasetMetadata")

/- ===================== Generic list lemmas ===================== -/

theorem find?_append_of_none {α : Type} (p : α → Bool) (l : List α) (x : α)
    (h : l.find? p = none) (hx : p x = true) : (l ++ [x]).find? p = some x := by
  induction l with
  | nil => simp [List.find?, hx]
  | cons a l ih =>
    simp only [List.find?] at h ⊢
    cases hpa : p a with
    | true => simp [hpa] at h
    | false =>
      simp only [hpa] at h ⊢
      exact ih h

theorem find?_key_of_mem_nodup {α : Type} (key : α → Nat) (l : List α) (r : α) (i : Nat)
    (hnd : (l.map key).Nodup) (hmem : r ∈ l) (hkey : key r = i) :
    l.find? (fun x => key x == i) = some r := by
  induction l with
  | nil => cases hmem
  | cons a l ih =>
    simp only [List.map_cons, List.nodup_cons] at hnd
    rcases List.mem_cons.mp hmem with h | h
    · subst h
      simp [List.find?, hkey]
    · have hka : key a ≠ i := by
        intro hcontra
        have hmm : key a ∈ List.map key l := by
          rw [hcontra, ← hkey]
          exact List.mem_map_of_mem key h
        exact hnd.1 hmm
      have hfalse : (key a == i) = false := by
        simp [hka]
      simp only [List.find?, hfalse]
      exact ih hnd.2 h

theorem find?_append_fresh {α : Type} (key : α → Nat) (l : List α) (r : α) (i : Nat)
    (h : ∀ x ∈ l, key x ≠ i) (hr : key r = i) :
    (l ++ [r]).find? (fun x => key x == i) = some r := by
  apply find?_append_of_none
  · rw [List.find?_eq_none]
    intro x hx
    simp [h x hx]
  · simp [hr]

theorem any_false_find?_none {α : Type} (p : α → Bool) (l : List α)
    (h : l.any p = false) : l.find? p = none := by
  rw [List.find?_eq_none]
  intro x hx hpx
  have htrue : l.any p = true := List.any_eq_true.mpr ⟨x, hx, hpx⟩
  rw [htrue] at h
  cases h

/-- C1: after a successful `register_user(username, password)`,
`verify_user(username, p)` is true exactly when `p` is the registered
password (given that the bcrypt digest is collision-free for a fixed
salt), and `verify_user` is false for any username with no stored
credential. -/
theorem c1_register_then_verify (H : Nat → String → String)
    (hinj : ∀ s a b, H s a = H s b → a = b) :
    (∀ (db : UsersTable) (u pw : String) (salt : Nat) (db2 : UsersTable),
        register_user H db u pw salt = (Except.ok (), db2) →
        verify_user H db2 u pw = true ∧
        ∀ p, p ≠ pw → verify_user H db2 u p = false) ∧
    (∀ (db : UsersTable) (u p : String), user_exists db u = false →
        verify_user H db u p = false) := by
  constructor
  · intro db u pw salt db2 hreg
    cases hex : user_exists db u with
    | true => simp [register_user, hex] at hreg
    | false =>
      simp only [register_user, hex, Bool.false_eq_true, if_false, Prod.mk.injEq, true_and] at hreg
      have hfind : db.find? (fun row => row.1 == u) = none := by
        apply any_false_find?_none
        exact hex
      have hfound := find?_append_of_none (fun row => row.1 == u) db
        (u, bcrypt_hashpw H pw salt) hfind (by simp)
      simp only [bcrypt_hashpw] at hfound
      subst hreg
      constructor
      · simp only [verify_user, bcrypt_hashpw, hfound, bcrypt_checkpw]
        simp
      · intro p hp
        simp only [verify_user, bcrypt_hashpw, hfound, bcrypt_checkpw]
        rw [beq_eq_false_iff_ne]
        intro heq
        exact hp (hinj salt pw p heq).symm
  · intro db u p hex
    have hfind : db.find? (fun row => row.1 == u) = none :=
      any_false_find?_none _ _ hex
    simp [verify_user, hfind]

/-- Witness for C1 at a concrete input (identity digest function, which
is injective per salt). -/
theorem c1_register_then_verify_witness :
    verify_user (fun _ p => p)
      ((register_user (fun _ p => p) [] "alice" "pw1" 5).2) "alice" "pw1" = true ∧
    verify_user (fun _ p => p)
      ((register_user (fun _ p => p) [] "alice" "pw1" 5).2) "alice" "pw2" = false ∧
    verify_user (fun _ p => p) [] "bob" "pw1" = false := by
  have h := c1_register_then_verify (fun _ p => p) (fun _ a b hab => hab)
  exact ⟨(h.1 [] "alice" "pw1" 5 [("alice", ⟨5, "pw1"⟩)] rfl).1,
         (h.1 [] "alice" "pw1" 5 [("alice", ⟨5, "pw1"⟩)] rfl).2 "pw2" (by decide),
         h.2 [] "bob" "pw1" rfl⟩

/-- C2: once `u` is present in the credential store, a second
`register_user(u, _)` fails with the duplicate-user error (the `UNIQUE`
constraint), leaves the table unchanged, and the hash stored by the
first registration is still the stored credential for `u`. -/
theorem c2_duplicate_register (H : Nat → String → String) (db : UsersTable)
    (u pw1 pw2 : String) (s1 s2 : Nat) (hnew : user_exists db u = false) :
    register_user H ((register_user H db u pw1 s1).2) u pw2 s2 =
      (Except.error AuthError.duplicateUser, (register_user H db u pw1 s1).2) ∧
    stored_hash ((register_user H db u pw1 s1).2) u = some (bcrypt_hashpw H pw1 s1) := by
  have hdb1 : (register_user H db u pw1 s1).2 = db ++ [(u, bcrypt_hashpw H pw1 s1)] := by
    simp [register_user, hnew]
  have hfind : db.find? (fun row => row.1 == u) = none :=
    any_false_find?_none _ _ hnew
  have hfound := find?_append_of_none (fun row => row.1 == u) db
    (u, bcrypt_hashpw H pw1 s1) hfind (by simp)
  have hex1 : user_exists (db ++ [(u, bcrypt_hashpw H pw1 s1)]) u = true := by
    simp [user_exists, List.any_append]
  constructor
  · rw [hdb1]
    simp [register_user, hex1]
  · rw [hdb1]
    simp [stored_hash, hfound]
theorem pyTruthyOpt_true_ne_none {o : Option String} (h : pyTruthyOpt o = true) :
    o ≠ none := by
  cases o with
  | none => simp [pyTruthyOpt] at h
  | some s => simp

/-- Any single store call preserves the `resolved_at`/`status`
coupling. -/
theorem incidentInv_applyOp (t : IncidentTable) (op : IncidentOp)
    (h : incidentInv t) : incidentInv (applyIncidentOp t op) := by
  cases op with
  | create typ sev desc analyst now =>
    intro r hr
    simp only [applyIncidentOp, SecurityIncident.create] at hr
    rcases List.mem_append.mp hr with hold | hnew
    · exact h r hold
    · simp only [List.mem_singleton] at hnew
      subst hnew
      simp
  | update i typ sev desc status_ analyst now =>
    intro r hr
    simp only [applyIncidentOp, SecurityIncident.update, List.mem_map] at hr
    obtain ⟨x, hx, hfx⟩ := hr
    by_cases hxi : x.id = i
    · subst hfx
      rw [if_pos hxi]
      by_cases hres : status_ = "Resolved"
      · subst hres
        cases htr : pyTruthyOpt (match SecurityIncident.get_by_id t i with
          | some c => c.resolved_at
          | none => none) with
        | false => simp [htr]
        | true =>
          have hne := pyTruthyOpt_true_ne_none htr
          simp [htr, hne]
      · simp [hres]
    · subst hfx
      rw [if_neg hxi]
      exact h x hx
  | delete i =>
    intro r hr
    simp only [applyIncidentOp, SecurityIncident.delete] at hr
    exact h r (List.mem_of_mem_filter hr)

theorem incidentInv_applyOps (ops : List IncidentOp) (t : IncidentTable)
    (h : incidentInv t) : incidentInv (applyIncidentOps t ops) := by
  induction ops generalizing t with
  | nil => exact h
  | cons op ops ih => exact ih _ (incidentInv_applyOp t op h)

/-- C3: `SecurityIncident.update` with `status="Resolved"` stores a
non-null `resolved_at` (the fresh timestamp, when it was previously
null); any other status stores `resolved_at = NULL`; consequently every
table reachable from the empty table by create/update/delete satisfies
`resolved_at` non-null iff `status = "Resolved"`. -/
theorem c3_resolved_at_iff_resolved :
    (∀ (t : IncidentTable) (i : Nat) (typ sev desc : String) (analyst : Option String)
        (now : String) (r : IncidentRow),
        (t.rows.map (fun x => x.id)).Nodup → r ∈ t.rows → r.id = i →
        r.resolved_at = none →
        (SecurityIncident.update t i typ sev desc "Resolved" analyst now).rows =
          t.rows.map (fun x =>
            if x.id = i then
              { x with incident_type := typ, severity := sev, description := desc,
                       status := "Resolved", resolved_at := some now,
                       analyst := analyst }
            else x)) ∧
    (∀ (t : IncidentTable) (i : Nat) (typ sev desc status_ : String)
        (analyst : Option String) (now : String), status_ ≠ "Resolved" →
        (SecurityIncident.update t i typ sev desc status_ analyst now).rows =
          t.rows.map (fun x =>
            if x.id = i then
              { x with incident_type := typ, severity := sev, description := desc,
                       status := status_, resolved_at := none, analyst := analyst }
            else x)) ∧
    (∀ ops : List IncidentOp, incidentInv (applyIncidentOps emptyIncidentTable ops)) := by
  refine ⟨?_, ?_, ?_⟩
  · intro t i typ sev desc analyst now r hnd hmem hid hnull
    have hfind : t.rows.find? (fun x => x.id == i) = some r :=
      find?_key_of_mem_nodup (fun x => x.id) t.rows r i hnd hmem hid
    simp [SecurityIncident.update, SecurityIncident.get_by_id, hfind,
      SecurityIncident.from_row, hnull, pyTruthyOpt]
  · intro t i typ sev desc status_ analyst now hne
    simp [SecurityIncident.update, hne]
  · intro ops
    exact incidentInv_applyOps ops emptyIncidentTable (by intro r hr; cases hr)

/-- Witness for C3 at concrete inputs. -/
theorem c3_resolved_at_iff_resolved_witness :
    (SecurityIncident.update
        ⟨[⟨1, "Phishing", "High", "d", "Open", "T0", none, none⟩], 2⟩
        1 "Phishing" "High" "d" "Resolved" none "T1").rows =
      [⟨1, "Phishing", "High", "d", "Resolved", "T0", some "T1", none⟩] ∧
    (SecurityIncident.update
        ⟨[⟨1, "Phishing", "High", "d", "Resolved", "T0", some "T1", none⟩], 2⟩
        1 "Phishing" "High" "d" "Open" none "T2").rows =
      [⟨1, "Phishing", "High", "d", "Open", "T0", none, none⟩] ∧
    incidentInv (applyIncidentOps emptyIncidentTable
      [IncidentOp.create "Phishing" "High" "d" none "T0",
       IncidentOp.update 1 "Phishing" "High" "d" "Resolved" none "T1"]) := by
  refine ⟨?_, ?_, c3_resolved_at_iff_resolved.2.2 _⟩
  · have h := c3_resolved_at_iff_resolved.1
      ⟨[⟨1, "Phishing", "High", "d", "Open", "T0", none, none⟩], 2⟩
      1 "Phishing" "High" "d" none "T1"
      ⟨1, "Phishing", "High", "d", "Open", "T0", none, none⟩
      (by decide) (by decide) rfl rfl
    rw [h]
    decide
  · have h := c3_resolved_at_iff_resolved.2.1
      ⟨[⟨1, "Phishing", "High", "d", "Resolved", "T0", some "T1", none⟩], 2⟩
      1 "Phishing" "High" "d" "Open" none "T2" (by decide)
    rw [h]
    decide

theorem map_if_id {α : Type} (l : List α) (key : α → Nat) (i : Nat) (f : α → α)
    (h : ∀ r ∈ l, key r ≠ i) :
    l.map (fun r => if key r = i then f r else r) = l := by
  induction l with
  | nil => rfl
  | cons a l ih =>
    simp only [List.map_cons, if_neg (h a (List.mem_cons_self a l)), List.cons.injEq,
      true_and]
    exact ih (fun r hr => h r (List.mem_cons_of_mem a hr))

/-- C7: `update` and `delete` on an id that has no row are silent
no-ops: the table (hence every stored row) is unchanged, and no error
is signalled (both operations are total functions on the state). -/
theorem c7_absent_id_noop (t : IncidentTable) (i : Nat)
    (typ sev desc status_ : String) (analyst : Option String) (now : String)
    (habs : ∀ r ∈ t.rows, r.id ≠ i) :
    SecurityIncident.update t i typ sev desc status_ analyst now = t ∧
    SecurityIncident.delete t i = t := by
  obtain ⟨rows, nid⟩ := t
  simp only [SecurityIncident.update, SecurityIncident.delete]
  constructor
  · simp only [IncidentTable.mk.injEq, and_true]
    exact map_if_id rows (fun r => r.id) i _ habs
  · simp only [IncidentTable.mk.injEq, and_true]
    apply List.filter_eq_self.mpr
    intro a ha
    simp [habs a ha]

/-- Witness for C7 at a concrete input (a one-row table, id 2 absent). -/
theorem c7_absent_id_noop_witness :
    SecurityIncident.update ⟨[⟨1, "Phishing", "High", "d", "Open", "T0", none, none⟩], 2⟩
        2 "Malware" "Low" "x" "Resolved" (some "ann") "T1" =
      ⟨[⟨1, "Phishing", "High", "d", "Open", "T0", none, none⟩], 2⟩ ∧
    SecurityIncident.delete ⟨[⟨1, "Phishing", "High", "d", "Open", "T0", none, none⟩], 2⟩
        2 =
      ⟨[⟨1, "Phishing", "High", "d", "Open", "T0", none, none⟩], 2⟩ :=
  c7_absent_id_noop ⟨[⟨1, "Phishing", "High", "d", "Open", "T0", none, none⟩], 2⟩
    2 "Malware" "Low" "x" "Resolved" (some "ann") "T1" (by decide)

theorem fold_incidents_length (csv : List CsvIncident) (now : String) :
    ∀ acc : Nat × IncidentTable,
      ((csv.foldl
          (fun acc c =>
            (acc.1 + 1,
             (SecurityIncident.create acc.2 c.incident_type c.severity c.description
                c.analyst now).2))
          acc).2).rows.length = acc.2.rows.length + csv.length := by
  induction csv with
  | nil => intro acc; simp
  | cons c csv ih =>
    intro acc
    simp only [List.foldl_cons, List.length_cons]
    rw [ih]
    simp only [SecurityIncident.create, List.length_append, List.length_cons,
      List.length_nil]
    omega

theorem fold_datasets_length (csv : List CsvDataset) (now : String) :
    ∀ acc : Nat × DatasetTable,
      ((csv.foldl
          (fun acc c =>
            (acc.1 + 1,
             (DatasetMetadata.create acc.2 c.dataset_name c.source c.owner
                (PyVal.vint c.rows) (PyVal.vreal c.size_mb) c.sensitivity c.status
                none now).2))
          acc).2).rows.length = acc.2.rows.length + csv.length := by
  induction csv with
  | nil => intro acc; simp
  | cons c csv ih =>
    intro acc
    simp only [List.foldl_cons, List.length_cons]
    rw [ih]
    simp only [DatasetMetadata.create, List.length_append, List.length_cons,
      List.length_nil]
    omega

theorem load_incidents_body_guard (csv : List CsvIncident) (now : String)
    (t : IncidentTable) (h : SecurityIncident.count t > 0) :
    load_cyber_incidents_body csv now t = (0, t) := by
  simp [load_cyber_incidents_body, h]

theorem load_datasets_body_guard (csv : List CsvDataset) (now : String)
    (t : DatasetTable) (h : DatasetMetadata.count t > 0) :
    load_datasets_metadata_body csv now t = (0, t) := by
  simp [load_datasets_metadata_body, h]

/-- C6 (code bug): as written, both guarded loaders raise `NameError`
on every call — `load_data.py` never imports `SecurityIncident` or
`DatasetMetadata` — before the `count() > 0` guard is reached, so the
loaders never return 0 and never insert anything.  The first two
conjuncts evaluate the code on every input (in particular the claim's
failing input, a non-empty table).  The remaining conjuncts prove the
claimed guard behaviour of the loader body as it runs once the names
resolve (the behaviour the spec and the functions' docstrings
describe): on a non-empty table it returns 0 inserting nothing, and
running it twice leaves the row count of the first run. -/
theorem c6_loaders_nameerror_code_bug :
    (∀ (csv : List CsvIncident) (now : String) (t : IncidentTable),
        load_cyber_incidents_from_csv csv now t =
          Except.error (PyRunError.nameError "SecurityIncident")) ∧
    (∀ (csv : List CsvDataset) (now : String) (t : DatasetTable),
        load_datasets_metadata_from_csv csv now t =
          Except.error (PyRunError.nameError "DatasetMetadata")) ∧
    (∀ (csv : List CsvIncident) (now : String) (t : IncidentTable),
        SecurityIncident.count t > 0 →
        load_cyber_incidents_body csv now t = (0, t)) ∧
    (∀ (csv : List CsvIncident) (now1 now2 : String) (t : IncidentTable),
        ((load_cyber_incidents_body csv now2
            (load_cyber_incidents_body csv now1 t).2).2).rows.length =
          ((load_cyber_incidents_body csv now1 t).2).rows.length) ∧
    (∀ (csv : List CsvDataset) (now : String) (t : DatasetTable),
        DatasetMetadata.count t > 0 →
        load_datasets_metadata_body csv now t = (0, t)) ∧
    (∀ (csv : List CsvDataset) (now1 now2 : String) (t : DatasetTable),
        ((load_datasets_metadata_body csv now2
            (load_datasets_metadata_body csv now1 t).2).2).rows.length =
          ((load_datasets_metadata_body csv now1 t).2).rows.length) := by
  refine ⟨fun _ _ _ => rfl, fun _ _ _ => rfl,
    load_incidents_body_guard, ?_, load_datasets_body_guard, ?_⟩
  · intro csv now1 now2 t
    by_cases h : SecurityIncident.count t > 0
    · rw [load_incidents_body_guard csv now1 t h]
      rw [load_incidents_body_guard csv now2 t h]
    · have h0 : t.rows.length = 0 := by
        simpa [SecurityIncident.count] using h
      have hfirst : (load_cyber_incidents_body csv now1 t).2 =
          (csv.foldl
            (fun acc c =>
              (acc.1 + 1,
               (SecurityIncident.create acc.2 c.incident_type c.severity
                  c.description c.analyst now1).2))
            (0, t)).2 := by
        simp [load_cyber_incidents_body, h]
      have hlen : ((load_cyber_incidents_body csv now1 t).2).rows.length =
          csv.length := by
        rw [hfirst, fold_incidents_length]
        simp [h0]
      by_cases hcsv : csv.length > 0
      · have hpos : SecurityIncident.count (load_cyber_incidents_body csv now1 t).2 > 0 := by
          simpa [SecurityIncident.count, hlen] using hcsv
        rw [load_incidents_body_guard csv now2 _ hpos]
      · have hnil : csv = [] := List.length_eq_zero.mp (by omega)
        subst hnil
        simp [load_cyber_incidents_body, h]
  · intro csv now1 now2 t
    by_cases h : DatasetMetadata.count t > 0
    · rw [load_datasets_body_guard csv now1 t h]
      rw [load_datasets_body_guard csv now2 t h]
    · have h0 : t.rows.length = 0 := by
        simpa [DatasetMetadata.count] using h
      have hfirst : (load_datasets_metadata_body csv now1 t).2 =
          (csv.foldl
            (fun acc c =>
              (acc.1 + 1,
               (DatasetMetadata.create acc.2 c.dataset_name c.source c.owner
                  (PyVal.vint c.rows) (PyVal.vreal c.size_mb) c.sensitivity c.status
                  none now1).2))
            (0, t)).2 := by
        simp [load_datasets_metadata_body, h]
      have hlen : ((load_datasets_metadata_body csv now1 t).2).rows.length =
          csv.length := by
        rw [hfirst, fold_datasets_length]
        simp [h0]
      by_cases hcsv : csv.length > 0
      · have hpos : DatasetMetadata.count (load_datasets_metadata_body csv now1 t).2 > 0 := by
          simpa [DatasetMetadata.count, hlen] using hcsv
        rw [load_datasets_body_guard csv now2 _ hpos]
      · have hnil : csv = [] := List.length_eq_zero.mp (by omega)
        subst hnil
        simp [load_datasets_metadata_body, h]

/-- Witness for C6 at concrete inputs: the loaders raise `NameError`
even on a non-empty table (the claim's failing input), and the
post-resolution body on the same non-empty tables returns 0 leaving
them unchanged. -/
theorem c6_loaders_nameerror_code_bug_witness :
    load_cyber_incidents_from_csv [⟨"Phishing", "High", "d", none⟩] "T1"
        ⟨[⟨1, "Malware", "Low", "x", "Open", "T0", none, none⟩], 2⟩ =
      Except.error (PyRunError.nameError "SecurityIncident") ∧
    load_datasets_metadata_from_csv [⟨"ds", "src", "own", 5, 2, "Low", "Active"⟩]
        "T1" ⟨[⟨1, "d0", "s0", "o0", 1, 1, "Low", "T0", "Active"⟩], 2⟩ =
      Except.error (PyRunError.nameError "DatasetMetadata") ∧
    load_cyber_incidents_body [⟨"Phishing", "High", "d", none⟩] "T1"
        ⟨[⟨1, "Malware", "Low", "x", "Open", "T0", none, none⟩], 2⟩ =
      (0, ⟨[⟨1, "Malware", "Low", "x", "Open", "T0", none, none⟩], 2⟩) ∧
    load_datasets_metadata_body [⟨"ds", "src", "own", 5, 2, "Low", "Active"⟩] "T1"
        ⟨[⟨1, "d0", "s0", "o0", 1, 1, "Low", "T0", "Active"⟩], 2⟩ =
      (0, ⟨[⟨1, "d0", "s0", "o0", 1, 1, "Low", "T0", "Active"⟩], 2⟩) :=
  ⟨c6_loaders_nameerror_code_bug.1 [⟨"Phishing", "High", "d", none⟩] "T1"
      ⟨[⟨1, "Malware", "Low", "x", "Open", "T0", none, none⟩], 2⟩,
   c6_loaders_nameerror_code_bug.2.1 [⟨"ds", "src", "own", 5, 2, "Low", "Active"⟩]
      "T1" ⟨[⟨1, "d0", "s0", "o0", 1, 1, "Low", "T0", "Active"⟩], 2⟩,
   c6_loaders_nameerror_code_bug.2.2.1 [⟨"Phishing", "High", "d", none⟩] "T1"
      ⟨[⟨1, "Malware", "Low", "x", "Open", "T0", none, none⟩], 2⟩ (by decide),
   c6_loaders_nameerror_code_bug.2.2.2.2.1
      [⟨"ds", "src", "own", 5, 2, "Low", "Active"⟩] "T1"
      ⟨[⟨1, "d0", "s0", "o0", 1, 1, "Low", "T0", "Active"⟩], 2⟩ (by decide)⟩

/-- C8: when the numeric inputs `rows`/`size_mb` reaching the dataset
store are missing or null (`row.get` yields `None`, i.e. `PyVal.vnone`)
or are strings `int(...)`/`float(...)` cannot parse, neither the
row-to-entity mapping nor `create` fails: the safe casts substitute the
documented defaults, and the resulting entity has `rows = 0` and
`size_mb = 0.0`. -/
theorem c8_safe_numeric_defaults :
    (∀ r : RawDatasetRow, pyIntCast r.rowsv = none →
        (DatasetMetadata.from_row r).rows = 0) ∧
    (∀ r : RawDatasetRow, pyFloatCast r.size_mbv = none →
        (DatasetMetadata.from_row r).size_mb = 0) ∧
    (∀ (t : DatasetTable) (name source owner : String) (rowsIn sizeIn : PyVal)
        (sens status_ : String) (lastUpd : Option String) (now : String),
        pyIntCast rowsIn = none → pyFloatCast sizeIn = none →
        ((DatasetMetadata.create t name source owner rowsIn sizeIn sens status_
            lastUpd now).1).rows = 0 ∧
        ((DatasetMetadata.create t name source owner rowsIn sizeIn sens status_
            lastUpd now).1).size_mb = 0) := by
  refine ⟨?_, ?_, ?_⟩
  · intro r h
    simp [DatasetMetadata.from_row, safe_int, h]
  · intro r h
    simp [DatasetMetadata.from_row, safe_float, h]
  · intro t name source owner rowsIn sizeIn sens status_ lastUpd now hi hf
    constructor
    · simp [DatasetMetadata.create, safe_int, hi]
    · simp [DatasetMetadata.create, safe_float, hf]

/-- Witness for C8: an unparsable string for `rows` and a null
`size_mb`. -/
theorem c8_safe_numeric_defaults_witness :
    (DatasetMetadata.from_row
        ⟨some 1, some "ds", some "src", some "own", PyVal.vtext "abc", PyVal.vnone,
         some "Low", some "T0", some "Active"⟩).rows = 0 ∧
    (DatasetMetadata.from_row
        ⟨some 1, some "ds", some "src", some "own", PyVal.vtext "abc", PyVal.vnone,
         some "Low", some "T0", some "Active"⟩).size_mb = 0 ∧
    ((DatasetMetadata.create emptyDatasetTable "ds" "src" "own"
        (PyVal.vtext "abc") PyVal.vnone "Low" "Active" none "T0").1).rows = 0 :=
  ⟨c8_safe_numeric_defaults.1
      ⟨some 1, some "ds", some "src", some "own", PyVal.vtext "abc", PyVal.vnone,
       some "Low", some "T0", some "Active"⟩ (by decide),
   c8_safe_numeric_defaults.2.1
      ⟨some 1, some "ds", some "src", some "own", PyVal.vtext "abc", PyVal.vnone,
       some "Low", some "T0", some "Active"⟩ (by decide),
   (c8_safe_numeric_defaults.2.2 emptyDatasetTable "ds" "src" "own"
      (PyVal.vtext "abc") PyVal.vnone "Low" "Active" none "T0" (by decide)
      (by decide)).1⟩

theorem btRow_btRow (r : TicketRow) : btRow (btRow r) = btRow r := by
  obtain ⟨id, tid, pr, desc, stt, asg, ca, rth, ttl, cd⟩ := r
  simp only [btRow]
  split_ifs <;> simp_all

theorem bcRow_bcRow (r : TicketRow) : bcRow (bcRow r) = bcRow r := by
  obtain ⟨id, tid, pr, desc, stt, asg, ca, rth, ttl, cd⟩ := r
  simp only [bcRow]
  split_ifs <;> simp_all

theorem btRow_bcRow_comm (r : TicketRow) : btRow (bcRow r) = bcRow (btRow r) := by
  obtain ⟨id, tid, pr, desc, stt, asg, ca, rth, ttl, cd⟩ := r
  simp only [btRow, bcRow]
  split_ifs <;> simp_all

theorem row_btbc_idem (r : TicketRow) :
    bcRow (btRow (bcRow (btRow r))) = bcRow (btRow r) := by
  rw [btRow_bcRow_comm (btRow r), bcRow_bcRow, btRow_btRow]

theorem ensureTicketsTable_idem (t : TicketTable) :
    ensureTicketsTable (ensureTicketsTable t) = ensureTicketsTable t := by
  obtain ⟨ftid, fdesc, fasg, fca, frt, fttl, fcd, rows, nid⟩ := t
  cases fdesc <;> cases fca <;> cases fttl <;> cases fcd <;>
    simp only [ensureTicketsTable, List.map_map, Bool.false_eq_true, if_true,
      if_false, ite_true, ite_false, TicketTable.mk.injEq, true_and, and_true,
      and_self] <;>
    (congr 1; funext r;
     simp [Function.comp, row_btbc_idem, btRow_btRow, bcRow_bcRow])

theorem pyOrStr_of_ne_empty (s : String) (d : String) (h : s ≠ "") :
    pyOrStr (some s) d = s := by
  simp [pyOrStr, h]

theorem pyOrStr_empty_default (s : String) : pyOrStr (some s) "" = s := by
  by_cases h : s = ""
  · subst h; rfl
  · simp [pyOrStr, h]

theorem pyOrStr_of_falsy (a : Option String) (d : String)
    (h : pyTruthyOpt a = false) : pyOrStr a d = d := by
  cases a with
  | none => rfl
  | some s =>
    simp only [pyTruthyOpt] at h
    have hs : s = "" := by simpa using h
    simp [pyOrStr, hs]

theorem ensureTicketsTable_flags (t : TicketTable) :
    (ensureTicketsTable t).hasTitle = true ∧
    (ensureTicketsTable t).hasCreatedDate = true := by
  obtain ⟨ftid, fdesc, fasg, fca, frt, fttl, fcd, rows, nid⟩ := t
  cases fdesc <;> cases fca <;> cases fttl <;> cases fcd <;>
    simp [ensureTicketsTable]

theorem ensure_result_stable (t : Option TicketTable) :
    ensureTicketsTable (ensure_it_tickets_table t) = ensure_it_tickets_table t := by
  cases t with
  | none => rfl
  | some tbl => exact ensureTicketsTable_idem tbl

theorem ensure_stable_append (u : TicketTable) (hu : ensureTicketsTable u = u)
    (r : TicketRow) (hbt : btRow r = r) (hbc : bcRow r = r) (n : Nat) :
    ensureTicketsTable { u with rows := u.rows ++ [r], nextId := n } =
      { u with rows := u.rows ++ [r], nextId := n } := by
  obtain ⟨ftid, fdesc, fasg, fca, frt, fttl, fcd, rows, nid⟩ := u
  cases fttl with
  | false =>
    exfalso
    simp only [ensureTicketsTable, TicketTable.mk.injEq] at hu
    cases fdesc <;> cases fca <;> cases fcd <;> simp_all
  | true =>
    cases fcd with
    | false =>
      exfalso
      simp only [ensureTicketsTable, TicketTable.mk.injEq] at hu
      cases fdesc <;> cases fca <;> simp_all
    | true =>
      cases fdesc <;> cases fca <;>
        simp only [ensureTicketsTable, if_true, if_false, ite_true, ite_false,
          TicketTable.mk.injEq, true_and, and_true, and_self,
          List.map_append, List.map_cons, List.map_nil, hbt, hbc] at hu ⊢ <;>
        simp_all

theorem ticket_create_get (t : Option TicketTable) (title pr stt now now2 : String)
    (htitle : title ≠ "") (hnow : now ≠ "")
    (hfresh : ∀ r ∈ (ensure_it_tickets_table t).rows,
        r.id ≠ (ensure_it_tickets_table t).nextId) :
    (ITTicket.get_by_id (some (ITTicket.create t title pr stt now).2)
        ((ensure_it_tickets_table t).nextId) now2).1 =
      some (ITTicket.create t title pr stt now).1 := by
  set u := ensure_it_tickets_table t with hu
  have hstab : ensureTicketsTable u = u := ensure_result_stable t
  have hT : u.hasTitle = true := by
    rw [← hstab]; exact (ensureTicketsTable_flags u).1
  have hCD : u.hasCreatedDate = true := by
    rw [← hstab]; exact (ensureTicketsTable_flags u).2
  set nrow : TicketRow := ⟨u.nextId, none, some pr, none, some stt, none, none,
    none, some title, some now⟩ with hnrow
  have hbt : btRow nrow = nrow := by simp [hnrow, btRow]
  have hbc : bcRow nrow = nrow := by simp [hnrow, bcRow]
  have hens := ensure_stable_append u hstab nrow hbt hbc (u.nextId + 1)
  have hfind := find?_append_fresh (fun r => r.id) u.rows nrow u.nextId hfresh
    (by rw [hnrow])
  have hcreate : ITTicket.create t title pr stt now =
      (⟨some u.nextId, title, some pr, some stt, now⟩,
       { u with rows := u.rows ++ [nrow], nextId := u.nextId + 1 }) := rfl
  rw [hcreate]
  have hst1 : ensure_it_tickets_table
      (some { u with rows := u.rows ++ [nrow], nextId := u.nextId + 1 }) =
      { u with rows := u.rows ++ [nrow], nextId := u.nextId + 1 } := hens
  simp only [ITTicket.get_by_id, hst1, hfind, Option.map_some]
  simp [hnrow, ITTicket.from_row, hT, hCD, pyOrStr_of_ne_empty _ _ htitle,
    pyOrStr_of_ne_empty _ _ hnow]

theorem incident_create_get (t : IncidentTable) (typ sev desc : String)
    (analyst : Option String) (now : String) (htyp : typ ≠ "") (hsev : sev ≠ "")
    (hfresh : ∀ r ∈ t.rows, r.id ≠ t.nextId) :
    SecurityIncident.get_by_id (SecurityIncident.create t typ sev desc analyst now).2
        t.nextId = some (SecurityIncident.create t typ sev desc analyst now).1 := by
  have hfind := find?_append_fresh (fun r => r.id) t.rows
    ⟨t.nextId, typ, sev, desc, "Open", now, none, analyst⟩ t.nextId hfresh rfl
  simp only [SecurityIncident.get_by_id, SecurityIncident.create, hfind,
    Option.map_some]
  simp [SecurityIncident.from_row, pyOrStr_of_ne_empty _ _ htyp,
    pyOrStr_of_ne_empty _ _ hsev, pyOrStr_empty_default,
    pyOrStr_of_ne_empty "Open" "Open" (by decide)]

theorem dataset_create_get (t : DatasetTable) (name source owner : String)
    (rowsIn sizeIn : PyVal) (sens status_ : String) (lastUpd : Option String)
    (now : String) (hname : name ≠ "") (hsrc : source ≠ "") (hown : owner ≠ "")
    (hsens : sens ≠ "") (hstt : status_ ≠ "")
    (hfresh : ∀ r ∈ t.rows, r.id ≠ t.nextId) :
    DatasetMetadata.get_by_id
        (DatasetMetadata.create t name source owner rowsIn sizeIn sens status_
          lastUpd now).2 t.nextId =
      some (DatasetMetadata.create t name source owner rowsIn sizeIn sens status_
        lastUpd now).1 := by
  have hfind := find?_append_fresh (fun r => r.id) t.rows
    ⟨t.nextId, name, source, owner, safe_int rowsIn, safe_float sizeIn, sens,
     pyOrStr lastUpd now, status_⟩ t.nextId hfresh rfl
  simp only [DatasetMetadata.get_by_id, DatasetMetadata.create, hfind,
    Option.map_some]
  simp [DatasetMetadata.from_row, datasetRowToRaw, safe_int, safe_float, pyIntCast,
    pyFloatCast, pyOrStr_of_ne_empty _ _ hname, pyOrStr_of_ne_empty _ _ hsrc,
    pyOrStr_of_ne_empty _ _ hown, pyOrStr_of_ne_empty _ _ hsens,
    pyOrStr_of_ne_empty _ _ hstt, pyOrStr_empty_default]

/-- C4 (amended): for each store, `create` then `get(id)` returns
exactly the entity `create` returned, provided the string fields the
row mapper `or`-defaults on falsy values are non-empty (ticket:
`title`; incident: `incident_type`, `severity`; dataset:
`dataset_name`, `source`, `owner`, `sensitivity`, `status`), the
creation timestamp is non-empty, and the assigned rowid is fresh.  As
literally stated the claim fails: `create` accepts an empty ticket
title but `get` then returns the synthetic title (see the
counterexample). -/
theorem c4_create_get_roundtrip :
    (∀ (t : Option TicketTable) (title pr stt now now2 : String),
        title ≠ "" → now ≠ "" →
        (∀ r ∈ (ensure_it_tickets_table t).rows,
            r.id ≠ (ensure_it_tickets_table t).nextId) →
        (ITTicket.get_by_id (some (ITTicket.create t title pr stt now).2)
            ((ensure_it_tickets_table t).nextId) now2).1 =
          some (ITTicket.create t title pr stt now).1) ∧
    (∀ (t : IncidentTable) (typ sev desc : String) (analyst : Option String)
        (now : String), typ ≠ "" → sev ≠ "" →
        (∀ r ∈ t.rows, r.id ≠ t.nextId) →
        SecurityIncident.get_by_id
            (SecurityIncident.create t typ sev desc analyst now).2 t.nextId =
          some (SecurityIncident.create t typ sev desc analyst now).1) ∧
    (∀ (t : DatasetTable) (name source owner : String) (rowsIn sizeIn : PyVal)
        (sens status_ : String) (lastUpd : Option String) (now : String),
        name ≠ "" → source ≠ "" → owner ≠ "" → sens ≠ "" → status_ ≠ "" →
        (∀ r ∈ t.rows, r.id ≠ t.nextId) →
        DatasetMetadata.get_by_id
            (DatasetMetadata.create t name source owner rowsIn sizeIn sens status_
              lastUpd now).2 t.nextId =
          some (DatasetMetadata.create t name source owner rowsIn sizeIn sens
            status_ lastUpd now).1) :=
  ⟨ticket_create_get, incident_create_get, dataset_create_get⟩

/-- Counterexample for C4 as stated: a ticket created with the empty
title (an assignment `create` accepts) is not returned unchanged by
`get` — the row mapper substitutes the synthetic title. -/
theorem c4_counterexample_empty_title :
    ¬ ((ITTicket.get_by_id (some (ITTicket.create none "" "Low" "Open" "T0").2)
          1 "T1").1 =
        some (ITTicket.create none "" "Low" "Open" "T0").1) := by decide

/-- Witness for C4 (amended) at concrete inputs, one per entity. -/
theorem c4_create_get_roundtrip_witness :
    (ITTicket.get_by_id (some (ITTicket.create none "Printer broken" "Low" "Open"
        "T0").2) 1 "T1").1 =
      some (ITTicket.create none "Printer broken" "Low" "Open" "T0").1 ∧
    SecurityIncident.get_by_id
        (SecurityIncident.create emptyIncidentTable "Phishing" "High" "d" none
          "T0").2 1 =
      some (SecurityIncident.create emptyIncidentTable "Phishing" "High" "d" none
        "T0").1 ∧
    DatasetMetadata.get_by_id
        (DatasetMetadata.create emptyDatasetTable "Sales2023" "Finance" "alice"
          (PyVal.vint 10000) (PyVal.vreal 250) "Low" "Active" none "T0").2 1 =
      some (DatasetMetadata.create emptyDatasetTable "Sales2023" "Finance" "alice"
        (PyVal.vint 10000) (PyVal.vreal 250) "Low" "Active" none "T0").1 :=
  ⟨c4_create_get_roundtrip.1 none "Printer broken" "Low" "Open" "T0" "T1"
      (by decide) (by decide) (by decide),
   c4_create_get_roundtrip.2.1 emptyIncidentTable "Phishing" "High" "d" none "T0"
      (by decide) (by decide) (by decide),
   c4_create_get_roundtrip.2.2 emptyDatasetTable "Sales2023" "Finance" "alice"
      (PyVal.vint 10000) (PyVal.vreal 250) "Low" "Active" none "T0"
      (by decide) (by decide) (by decide) (by decide) (by decide) (by decide)⟩

/-- C5: `ensure_it_tickets_table` is idempotent — a second call changes
neither the schema nor any row — and on a table in the legacy shape it
adds the `title` and `created_date` columns and backfills them from
`description` and `created_at`, changing no legacy column value. -/
theorem c5_ensure_schema_idempotent_migration :
    (∀ t : Option TicketTable,
        ensure_it_tickets_table (some (ensure_it_tickets_table t)) =
          ensure_it_tickets_table t) ∧
    (∀ (rows : List TicketRow) (nid : Nat),
        ensure_it_tickets_table (some (legacyTicketTable rows nid)) =
          { legacyTicketTable rows nid with
              hasTitle := true, hasCreatedDate := true,
              rows := rows.map (fun r =>
                { r with title := r.description, created_date := r.created_at }) }) := by
  constructor
  · intro t
    cases t with
    | none => rfl
    | some tbl => exact ensureTicketsTable_idem tbl
  · intro rows nid
    show ensureTicketsTable (legacyTicketTable rows nid) = _
    simp only [legacyTicketTable, ensureTicketsTable, Bool.false_eq_true, if_false,
      if_true, ite_true, ite_false, List.map_map, TicketTable.mk.injEq, true_and,
      and_true, and_self]
    congr 1
    funext r
    obtain ⟨id, tid, pr, desc, stt, asg, ca, rth, ttl, cd⟩ := r
    simp only [Function.comp, btRow, bcRow]
    split_ifs <;> simp_all

/-- C9: on an already-migrated table (one `ensure_it_tickets_table`
leaves unchanged, as it does every table the store's own operations
produce), `ITTicket.update` rewrites only the `priority` and `status`
cells of the row with the given id: every other cell of that row
(`title`, `created_date` and the legacy columns) and every other row
are unchanged. -/
theorem c9_update_only_priority_status (tbl : TicketTable) (i : Nat)
    (pr stt : String) (hstable : ensure_it_tickets_table (some tbl) = tbl) :
    (ITTicket.update (some tbl) i pr stt).rows =
      tbl.rows.map (fun r =>
        if r.id = i then { r with priority := some pr, status := some stt } else r) ∧
    (∀ r : TicketRow, r.id ≠ i →
        (if r.id = i then { r with priority := some pr, status := some stt } else r)
          = r) ∧
    (∀ r : TicketRow,
        (if r.id = i then { r with priority := some pr, status := some stt }
          else r).id = r.id ∧
        (if r.id = i then { r with priority := some pr, status := some stt }
          else r).title = r.title ∧
        (if r.id = i then { r with priority := some pr, status := some stt }
          else r).created_date = r.created_date ∧
        (if r.id = i then { r with priority := some pr, status := some stt }
          else r).ticket_id = r.ticket_id ∧
        (if r.id = i then { r with priority := some pr, status := some stt }
          else r).description = r.description ∧
        (if r.id = i then { r with priority := some pr, status := some stt }
          else r).assigned_to = r.assigned_to ∧
        (if r.id = i then { r with priority := some pr, status := some stt }
          else r).created_at = r.created_at ∧
        (if r.id = i then { r with priority := some pr, status := some stt }
          else r).resolution_time_hours = r.resolution_time_hours) := by
  refine ⟨?_, ?_, ?_⟩
  · simp only [ITTicket.update, hstable]
  · intro r h
    rw [if_neg h]
  · intro r
    by_cases h : r.id = i <;> simp [h]

/-- Witness for C9 at a concrete input: a migrated one-row table. -/
theorem c9_update_only_priority_status_witness :
    (ITTicket.update
        (some ⟨false, false, false, false, false, true, true,
          [⟨1, none, some "Low", none, some "Open", none, none, none,
            some "Printer", some "T0"⟩], 2⟩) 1 "High" "Closed").rows =
      [⟨1, none, some "High", none, some "Closed", none, none, none,
        some "Printer", some "T0"⟩] := by
  have h := (c9_update_only_priority_status
    ⟨false, false, false, false, false, true, true,
      [⟨1, none, some "Low", none, some "Open", none, none, none,
        some "Printer", some "T0"⟩], 2⟩ 1 "High" "Closed" rfl).1
  rw [h]
  decide

/-- C10: when the `title` cell the row exposes is null/empty and so is
the `description` cell, `ITTicket.from_row` maps the row to the
synthetic title built from the row's id; in particular creating a
ticket with an empty title and fetching it by id yields the non-empty
synthetic title, not the stored empty string. -/
theorem c10_synthetic_title_for_empty :
    (∀ (t : TicketTable) (r : TicketRow) (now : String),
        pyTruthyOpt (if t.hasTitle then r.title else none) = false →
        pyTruthyOpt (if t.hasDescription then r.description else none) = false →
        (ITTicket.from_row t r now).title =
          "Ticket " ++ pyStrOfOptInt (pyOrInt (some (r.id : Int))
            (if t.hasTicketId then r.ticket_id else none)) ++
            " problem description") ∧
    (∀ pr stt now now2 : String,
        ((ITTicket.get_by_id (some (ITTicket.create none "" pr stt now).2) 1
            now2).1).map (fun e => e.title) =
          some "Ticket 1 problem description") := by
  constructor
  · intro t r now h1 h2
    simp only [ITTicket.from_row]
    rw [pyOrStr_of_falsy _ _ h1, pyOrStr_of_falsy _ _ h2]
  · intro pr stt now now2
    simp [ITTicket.get_by_id, ITTicket.create, ensure_it_tickets_table,
      newTicketTable, ensureTicketsTable, ITTicket.from_row, List.find?, pyOrStr,
      pyOrInt, pyStrOfOptInt]
    decide

/-- Witness for C10 at a concrete input: title cell empty, description
null. -/
theorem c10_synthetic_title_for_empty_witness :
    (ITTicket.from_row
        ⟨false, false, false, false, false, true, true, [], 1⟩
        ⟨3, none, some "Low", none, some "Open", none, none, none, some "", none⟩
        "T1").title = "Ticket 3 problem description" := by
  have h := c10_synthetic_title_for_empty.1
    ⟨false, false, false, false, false, true, true, [], 1⟩
    ⟨3, none, some "Low", none, some "Open", none, none, none, some "", none⟩
    "T1" (by decide) (by decide)
  rw [h]
  decide

/-- Witness for C2 at a concrete input. -/
theorem c2_duplicate_register_witness :
    register_user (fun _ p => p) ((register_user (fun _ p => p) [] "alice" "pw1" 5).2)
        "alice" "pw2" 7 =
      (Except.error AuthError.duplicateUser,
       (register_user (fun _ p => p) [] "alice" "pw1" 5).2) ∧
    stored_hash ((register_user (fun _ p => p) [] "alice" "pw1" 5).2) "alice" =
      some (bcrypt_hashpw (fun _ p => p) "pw1" 5) :=
  c2_duplicate_register (fun _ p => p) [] "alice" "pw1" "pw2" 5 7 rfl

end CW2
